import Mathlib

/-!
Shallow embedding of the ESP32-C3 companion-display firmware (`src/main.cpp`):
the activity/display coordination core.  Times are modelled as naturals; the
32-bit `unsigned long` subtraction `millis() - t` of the source is modelled by
`sub32`.  Each render function produces its list of abstracted draw calls in
source order; the external display, wireless and power collaborators are kept
abstract (the string-width query of the display is a parameter).
-/

namespace Chronos

/-- `2 ^ 32`, the modulus of the `unsigned long` arithmetic on the target. -/
def U32 : Nat := 4294967296

/-- `#define SLEEP_TIME_MS 30000` — sleep after 30 seconds of inactivity. -/
def SLEEP_TIME_MS : Nat := 30000

/-- `#define DEEP_SLEEP_TIME_US 60000000ULL` — deep sleep for 60 seconds. -/
def DEEP_SLEEP_TIME_US : Nat := 60000000

/-- 32-bit wrapping subtraction `a - b`, as computed on `unsigned long`. -/
def sub32 (a b : Nat) : Nat :=
  (a % U32 + (U32 - b % U32)) % U32

/-- The `Navigation` record delivered by the ChronosESP32 collaborator; the
48×48 icon bitmap is a byte array, modelled as a function from byte index. -/
structure Navigation where
  active : Bool
  hasIcon : Bool
  icon : Nat → Nat
  directions : String
  distance : String

/-- The `Notification` record delivered by the ChronosESP32 collaborator. -/
structure Notification where
  title : String
  message : String

/-- The configuration-update kinds the `onConfig` handler branches on;
`CF_OTHER` stands for every other `Config` value (the handler ignores them). -/
inductive Config where
  | CF_TIME
  | CF_PBAT
  | CF_NAV_DATA
  | CF_NAV_ICON
  | CF_OTHER
deriving DecidableEq

/-- Data read back from the chronos collaborator inside handlers:
`getHourZ() + getTime(":%M")`, `getDate()`, and `getNavigation()`. -/
structure ChronosLink where
  timeStr : String
  dateStr : String
  nav : Navigation

/-- The mutable globals of `main.cpp`. -/
structure State where
  currentTime : String
  currentDate : String
  hasNotif : Bool
  notifStart : Nat
  notifText : String
  hasNav : Bool
  navData : Navigation
  batteryLevel : Nat
  isCharging : Bool
  lastActivity : Nat
  sleepEnabled : Bool
  buttonPressed : Bool

/-- An abstracted draw call against the u8g2 display collaborator. -/
inductive DrawCall where
  | clearBuffer
  | sendBuffer
  | setFont (font : String)
  | drawStr (x y : Nat) (text : String)
  | drawPixel (x y : Nat)
  | drawFrame (x y w h : Nat)
  | drawBox (x y w h : Nat)
deriving DecidableEq

def font6x10 : String := "u8g2_font_6x10_tr"

def font7x14B : String := "u8g2_font_7x14B_tr"

def fontFub14 : String := "u8g2_font_fub14_tr"

def fontLogisoso32 : String := "u8g2_font_logisoso32_tr"

def notifLabel : String := "Notifikasi:"

def sleepInStr : String := "Sleep in "

def secondsStr : String := "s"

def ellipsisStr : String := "..."

def sepStr : String := ": "

def spaceStr : String := " "

/-- `String::substring(0, j)` of the Arduino string library: characters `[0, j)`. -/
def substringTo (s : String) (j : Nat) : String :=
  ⟨s.data.take j⟩

/-- `String::substring(i)` of the Arduino string library: characters `[i, len)`. -/
def substringFrom (s : String) (i : Nat) : String :=
  ⟨s.data.drop i⟩

/-- Downward search for the greatest index `≤ k` holding character `c`. -/
def lastIndexAux (c : Char) (l : List Char) : Nat → Option Nat
  | 0 => if l.get? 0 = some c then some 0 else none
  | k + 1 => if l.get? (k + 1) = some c then some (k + 1) else lastIndexAux c l k

/-- `String::lastIndexOf(c, fromIndex)` of the Arduino string library: the
greatest index `≤ fromIndex` holding `c`, or `none`; `none` when
`fromIndex ≥ length`. -/
def lastIndexOfFrom (c : Char) (l : List Char) (fromIndex : Nat) : Option Nat :=
  if l.length ≤ fromIndex then none else lastIndexAux c l fromIndex

/-- `buttonISR`: the button interrupt handler. -/
def buttonISR (now : Nat) (s : State) : State :=
  { s with buttonPressed := true, lastActivity := now }

/-- Result of one `checkSleep` evaluation: the updated globals, and whether
`goToSleep()` was invoked (the AWAKE → SUSPENDED transition). -/
structure SleepCheck where
  state : State
  goToSleep : Bool

/-- `checkSleep`: don't sleep if charging, has notifications, or navigation is
active (resetting `lastActivity`); otherwise sleep on inactivity timeout. -/
def checkSleep (now : Nat) (s : State) : SleepCheck :=
  if s.isCharging || s.hasNotif || (s.hasNav && s.navData.active) then
    { state := { s with lastActivity := now }, goToSleep := false }
  else if s.sleepEnabled && decide (sub32 now s.lastActivity > SLEEP_TIME_MS) then
    { state := s, goToSleep := true }
  else
    { state := s, goToSleep := false }

/-- `drawNavIcon`: plot every set bit of the 48×48 MSB-first bitmap, shifted
down by 16 rows, clipped to the display. -/
def drawNavIcon (bitmap : Nat → Nat) : List DrawCall :=
  (List.range 48).flatMap fun y =>
    (List.range 48).filterMap fun x =>
      let byteIndex := (y * 48 + x) / 8
      let bit := 7 - x % 8
      if (bitmap byteIndex).testBit bit then
        if y + 16 < 64 ∧ x < 48 then some (.drawPixel x (y + 16)) else none
      else none

/-- `drawBattery`: frame, terminal nub, and proportional fill bar. -/
def drawBattery (x y level : Nat) : List DrawCall :=
  [ .drawFrame x y 20 8,
    .drawBox (x + 20) (y + 2) 2 4,
    .drawBox (x + 1) (y + 1) (level * 18 / 100) 6 ]

/-- `drawNotification`: label line then the stored notification text. -/
def drawNotification (s : State) : List DrawCall :=
  [ .setFont font6x10,
    .drawStr 0 12 notifLabel,
    .drawStr 0 28 s.notifText ]

/-- The direction-text block of `drawNavigation`: wrap into two lines when the
single-line width exceeds `128 - 52`, splitting at
`lastIndexOf(' ', length / 2)` when that index exists. -/
def drawDirection (strWidth : String → Nat) (y : Nat) (direction : String) : List DrawCall :=
  if strWidth direction > 128 - 52 then
    match lastIndexOfFrom ' ' direction.data (direction.data.length / 2) with
    | some split =>
      [ .drawStr 52 (y + 8) (substringTo direction split),
        .drawStr 52 (y + 20) (substringFrom direction (split + 1)) ]
    | none => [ .drawStr 52 (y + 12) direction ]
  else [ .drawStr 52 (y + 12) direction ]

/-- `drawNavigation`: everything is guarded by `navData.hasIcon`; icon, then
the direction text (`y = 10`), then the distance in a larger font. -/
def drawNavigation (strWidth : String → Nat) (s : State) : List DrawCall :=
  if s.navData.hasIcon then
    drawNavIcon s.navData.icon ++
    [DrawCall.setFont font7x14B] ++
    drawDirection strWidth 10 s.navData.directions ++
    [ .setFont fontFub14,
      .drawStr 52 (10 + 40) s.navData.distance ]
  else []

/-- The unconditional part of `drawClock`: time, date, battery gauge. -/
def clockBase (s : State) : List DrawCall :=
  [ .setFont fontLogisoso32,
    .drawStr 0 42 s.currentTime,
    .setFont font6x10,
    .drawStr 90 10 s.currentDate ] ++
  drawBattery 100 52 s.batteryLevel

/-- `drawClock`: clock base, plus the sleep countdown in the last 10 seconds
when not charging, no notification, and navigation not active. -/
def drawClock (now : Nat) (s : State) : List DrawCall :=
  clockBase s ++
  (if !s.isCharging && !s.hasNotif && (!s.hasNav || !s.navData.active) then
    let timeToSleep := sub32 SLEEP_TIME_MS (sub32 now s.lastActivity)
    if timeToSleep < 10000 then
      [ .setFont font6x10,
        .drawStr 0 64 (sleepInStr ++ toString (timeToSleep / 1000) ++ secondsStr) ]
    else []
  else [])

/-- The display modes the master draw dispatches between. -/
inductive Mode where
  | NOTIFICATION
  | NAVIGATION
  | CLOCK
deriving DecidableEq

/-- The mode-selection chain of `drawScreen` (first true branch wins). -/
def selectMode (now : Nat) (s : State) : Mode :=
  if s.hasNotif && decide (sub32 now s.notifStart < 1500) then .NOTIFICATION
  else if s.hasNav && s.navData.active then .NAVIGATION
  else .CLOCK

/-- `drawScreen`: clear the buffer, draw the selected mode, send the buffer. -/
def drawScreen (strWidth : String → Nat) (now : Nat) (s : State) : List DrawCall :=
  [DrawCall.clearBuffer] ++
  (if s.hasNotif && decide (sub32 now s.notifStart < 1500) then drawNotification s
   else if s.hasNav && s.navData.active then drawNavigation strWidth s
   else drawClock now s) ++
  [DrawCall.sendBuffer]

/-- `onConnection`: reset the sleep timer on connection changes. -/
def onConnection (now : Nat) (_state : Bool) (s : State) : State :=
  { s with lastActivity := now }

/-- `onNotification`: compose `title + ": " + message`, truncate to 20
characters plus `"..."` when longer, restart the notification window. -/
def onNotification (now : Nat) (notif : Notification) (s : State) : State :=
  let text := notif.title ++ sepStr ++ notif.message
  let text := if text.data.length > 20 then substringTo text 20 ++ ellipsisStr else text
  { s with notifText := text, notifStart := now, hasNotif := true, lastActivity := now }

/-- `onConfig`: the four handled configuration kinds of the source. -/
def onConfig (ch : ChronosLink) (now : Nat) (type : Config) (a b : Nat) (s : State) : State :=
  match type with
  | .CF_TIME => { s with currentTime := ch.timeStr, currentDate := ch.dateStr }
  | .CF_PBAT => { s with batteryLevel := b, isCharging := a == 1, lastActivity := now }
  | .CF_NAV_DATA =>
    if ch.nav.active then
      { s with navData := ch.nav, hasNav := ch.nav.active, lastActivity := now }
    else
      { s with navData := ch.nav, hasNav := ch.nav.active }
  | .CF_NAV_ICON =>
    { s with navData := { s.navData with icon := ch.nav.icon, hasIcon := true } }
  | .CF_OTHER => s

/-- The button-pending block at the top of `loop()`. -/
def handleButtonPress (now : Nat) (s : State) : State :=
  if s.buttonPressed then
    { s with buttonPressed := false, lastActivity := now }
  else s

/-- The notification-expiry check of `loop()`: clear `hasNotif` once the
1500 ms window has elapsed. -/
def notifExpiryCheck (now : Nat) (s : State) : State :=
  if s.hasNotif && decide (sub32 now s.notifStart > 1500) then
    { s with hasNotif := false }
  else s

/-- All-zero icon bitmap, for concrete states. -/
def icon0 : Nat → Nat := fun _ => 0

/-- A concrete idle state: fresh boot, no suppressors, `lastActivity = 0`. -/
def baseState : State :=
  { currentTime := "", currentDate := "", hasNotif := false, notifStart := 0,
    notifText := "", hasNav := false,
    navData := { active := false, hasIcon := false, icon := icon0,
                 directions := "", distance := "" },
    batteryLevel := 0, isCharging := false, lastActivity := 0,
    sleepEnabled := true, buttonPressed := false }

/-- A concrete suppressed state: charging. -/
def chargingState : State :=
  { baseState with isCharging := true }

/-- A concrete state in NAVIGATION mode whose icon has not been received. -/
def navNoIconState : State :=
  { baseState with
    hasNav := true,
    navData := { active := true, hasIcon := false, icon := icon0,
                 directions := "", distance := "" } }

def sampleNoMidSpace : String := "abcdefgh ij"

def sampleDistance : String := "1 km"

def sampleTwoWords : String := "hello world"

def helloStr : String := "hello"

def worldStr : String := "world"

def sleepMsg0 : String := "Sleep in 0s"

def sleepMsg1 : String := "Sleep in 1s"

def sleepMsg10 : String := "Sleep in 10s"

/-- A seven-pixels-per-character width model (the 7x14 font). -/
def width7 : String → Nat := fun t => 7 * t.data.length

/-- A concrete navigation state whose direction text has its only space after
the midpoint. -/
def wideNavState : State :=
  { baseState with
    hasNav := true,
    navData := { active := true, hasIcon := true, icon := icon0,
                 directions := sampleNoMidSpace, distance := sampleDistance } }

def timeSample : String := "10:30"

def dateSample : String := "01/01"

def navActiveSample : Navigation :=
  { active := true, hasIcon := false, icon := icon0,
    directions := "", distance := "" }

/-- A concrete chronos read-back whose navigation is active. -/
def linkActive : ChronosLink :=
  { timeStr := timeSample, dateStr := dateSample, nav := navActiveSample }

def title13 : String := "1234567890123"

def msg10 : String := "1234567890"

/-- A concrete notification whose composed text has 25 characters. -/
def notifSample : Notification := { title := title13, message := msg10 }

def sleepMsg5 : String := "Sleep in 5s"

/-- The 25-character composed text of `notifSample`, truncated by the code. -/
def truncSample : String := "1234567890123: 12345..."

theorem sub32_eq_sub (a b : Nat) (hb : b ≤ a) (ha : a < U32) : sub32 a b = a - b := by
  have hU : U32 = 4294967296 := rfl
  have hbu : b < U32 := Nat.lt_of_le_of_lt hb ha
  unfold sub32
  rw [Nat.mod_eq_of_lt ha, Nat.mod_eq_of_lt hbu]
  have h3 : a + (U32 - b) = a - b + U32 := by omega
  rw [h3, Nat.add_mod_right, Nat.mod_eq_of_lt (by omega)]

/-- C1: the AWAKE → SUSPENDED transition (`goToSleep`) is invoked by a
`checkSleep` evaluation if and only if, at evaluation time, `sleepEnabled` is
true, the elapsed time since `lastActivity` strictly exceeds `SLEEP_TIME_MS`
(30000 ms), and none of the suppressors holds — `isCharging` false,
notification inactive, navigation inactive — all read at evaluation time. -/
theorem checkSleep_goToSleep_iff (s : State) (now : Nat)
    (h1 : s.lastActivity ≤ now) (h2 : now < U32) :
    (checkSleep now s).goToSleep = true ↔
      (s.sleepEnabled = true ∧ now - s.lastActivity > SLEEP_TIME_MS ∧
       s.isCharging = false ∧ s.hasNotif = false ∧
       (s.hasNav && s.navData.active) = false) := by
  have he : sub32 now s.lastActivity = now - s.lastActivity := sub32_eq_sub _ _ h1 h2
  unfold checkSleep
  cases hC : s.isCharging <;> cases hN : s.hasNotif <;>
    cases hNav : s.hasNav && s.navData.active <;>
    cases hE : s.sleepEnabled <;>
    simp_all [he]
  split <;> simp_all

theorem checkSleep_goToSleep_iff_witness :
    (checkSleep 30001 baseState).goToSleep = true :=
  (checkSleep_goToSleep_iff baseState 30001 (by decide) (by decide)).mpr
    ⟨rfl, by decide, rfl, rfl, rfl⟩

/-- C2: each render tick picks exactly one mode by fixed total priority —
NOTIFICATION when the notification is active and `now - startTime < 1500`,
regardless of navigation; otherwise NAVIGATION when navigation is active;
otherwise CLOCK — and `drawScreen` draws exactly the selected mode between a
clear and a flush. -/
theorem selectMode_priority (strWidth : String → Nat) (s : State) (now : Nat)
    (h1 : s.notifStart ≤ now) (h2 : now < U32) :
    (selectMode now s =
      if s.hasNotif = true ∧ now - s.notifStart < 1500 then Mode.NOTIFICATION
      else if s.hasNav = true ∧ s.navData.active = true then Mode.NAVIGATION
      else Mode.CLOCK) ∧
    drawScreen strWidth now s =
      [DrawCall.clearBuffer] ++
      (match selectMode now s with
       | Mode.NOTIFICATION => drawNotification s
       | Mode.NAVIGATION => drawNavigation strWidth s
       | Mode.CLOCK => drawClock now s) ++
      [DrawCall.sendBuffer] := by
  have he : sub32 now s.notifStart = now - s.notifStart := sub32_eq_sub _ _ h1 h2
  constructor
  · unfold selectMode
    cases hN : s.hasNotif <;> cases hNav : s.hasNav <;> cases hA : s.navData.active <;>
      by_cases hlt : now - s.notifStart < 1500 <;> simp_all [he]
  · unfold drawScreen selectMode
    cases hN : s.hasNotif <;> cases hNav : s.hasNav <;> cases hA : s.navData.active <;>
      by_cases hlt : now - s.notifStart < 1500 <;> simp_all [he] <;>
      (try (split <;> simp_all))

theorem selectMode_priority_witness :
    selectMode 100 { baseState with hasNotif := true,
                                    navData := navActiveSample, hasNav := true } =
      Mode.NOTIFICATION :=
  ((selectMode_priority width7 _ 100 (Nat.zero_le 100) (by decide)).1).trans (by decide)

/-- C8: the notification-expiry check is idempotent — on any state whose
notification flag is already false it returns the state unchanged. -/
theorem notifExpiryCheck_idempotent (now : Nat) (s : State)
    (h : s.hasNotif = false) :
    notifExpiryCheck now s = s := by
  unfold notifExpiryCheck
  rw [h]
  simp

theorem notifExpiryCheck_idempotent_witness :
    notifExpiryCheck 9999 baseState = baseState :=
  notifExpiryCheck_idempotent 9999 baseState rfl

/-- C9: whenever `checkSleep` runs while a suppressor holds it does not sleep
and resets `lastActivity` to the current time; consequently, from that reset,
no `checkSleep` evaluation within the next `SLEEP_TIME_MS` milliseconds can
invoke `goToSleep`, regardless of how long the device was idle before. -/
theorem checkSleep_suppressed_resets (s : State) (now : Nat)
    (h : (s.isCharging || s.hasNotif || (s.hasNav && s.navData.active)) = true) :
    (checkSleep now s).goToSleep = false ∧
    (checkSleep now s).state.lastActivity = now ∧
    (∀ (t : State) (nxt : Nat), t.lastActivity = now →
      now ≤ nxt → nxt ≤ now + SLEEP_TIME_MS → nxt < U32 →
      (checkSleep nxt t).goToSleep = false) := by
  refine ⟨?_, ?_, ?_⟩
  · unfold checkSleep; rw [h]; simp
  · unfold checkSleep; rw [h]; simp
  · intro t nxt hla hle hub hlt
    unfold checkSleep
    by_cases hs : (t.isCharging || t.hasNotif || (t.hasNav && t.navData.active)) = true
    · rw [hs]; simp
    · rw [Bool.not_eq_true] at hs
      rw [hs]
      have he : sub32 nxt t.lastActivity = nxt - t.lastActivity :=
        sub32_eq_sub _ _ (by omega) hlt
      have hng : ¬ sub32 nxt t.lastActivity > SLEEP_TIME_MS := by
        rw [he, hla]
        have hT : SLEEP_TIME_MS = 30000 := rfl
        omega
      simp [hng]

theorem checkSleep_suppressed_resets_witness :
    (checkSleep 50000 chargingState).goToSleep = false ∧
    (checkSleep 50000 chargingState).state.lastActivity = 50000 ∧
    (checkSleep 80000 { baseState with lastActivity := 50000 }).goToSleep = false := by
  have h := checkSleep_suppressed_resets chargingState 50000 (by decide)
  exact ⟨h.1, h.2.1,
    h.2.2 { baseState with lastActivity := 50000 } 80000 rfl (by decide) (by decide) (by decide)⟩

/-- C10: in NAVIGATION mode with the icon not yet fully received,
`drawNavigation` emits no draw calls at all, so the render cycle clears and
flushes an entirely blank frame. -/
theorem drawNavigation_noIcon_blank (strWidth : String → Nat) (s : State) (now : Nat)
    (hIcon : s.navData.hasIcon = false)
    (hmode : selectMode now s = Mode.NAVIGATION) :
    drawNavigation strWidth s = [] ∧
    drawScreen strWidth now s = [DrawCall.clearBuffer, DrawCall.sendBuffer] := by
  have hnav : drawNavigation strWidth s = [] := by
    unfold drawNavigation
    rw [hIcon]
    simp
  refine ⟨hnav, ?_⟩
  unfold selectMode at hmode
  unfold drawScreen
  by_cases h1 : (s.hasNotif && decide (sub32 now s.notifStart < 1500)) = true
  · rw [h1] at hmode; simp at hmode
  · rw [Bool.not_eq_true] at h1
    rw [h1] at hmode ⊢
    by_cases h2 : (s.hasNav && s.navData.active) = true
    · rw [h2]
      simp [hnav]
    · rw [Bool.not_eq_true] at h2
      rw [h2] at hmode
      simp at hmode

theorem drawNavigation_noIcon_blank_witness :
    drawNavigation width7 navNoIconState = [] ∧
    drawScreen width7 0 navNoIconState = [DrawCall.clearBuffer, DrawCall.sendBuffer] :=
  drawNavigation_noIcon_blank width7 navNoIconState 0 rfl rfl

/-- C4 counterexample: a time-sync tick at time 5000 (and likewise a
navigation-icon update) leaves `lastActivity` unchanged at 0 instead of
setting it to the current time. -/
theorem onConfig_time_keeps_lastActivity_cex :
    (onConfig linkActive 5000 Config.CF_TIME 0 0 baseState).lastActivity = 0 ∧
    (onConfig linkActive 5000 Config.CF_NAV_ICON 0 0 baseState).lastActivity = 0 ∧
    (0 : Nat) ≠ 5000 :=
  ⟨rfl, rfl, by decide⟩

/-- C4 amended: battery updates, navigation-data updates whose navigation is
active, notification arrivals, connection-state changes, and button presses
(interrupt and loop consumption) set `lastActivity` to the current time;
time-sync ticks, navigation-icon updates, navigation-data updates with
inactive navigation, and unhandled configuration kinds leave it unchanged. -/
theorem event_handlers_lastActivity (ch : ChronosLink) (now a b : Nat)
    (n : Notification) (c : Bool) (s : State) :
    (onConfig ch now Config.CF_PBAT a b s).lastActivity = now ∧
    (ch.nav.active = true →
      (onConfig ch now Config.CF_NAV_DATA a b s).lastActivity = now) ∧
    (ch.nav.active = false →
      (onConfig ch now Config.CF_NAV_DATA a b s).lastActivity = s.lastActivity) ∧
    (onConfig ch now Config.CF_TIME a b s).lastActivity = s.lastActivity ∧
    (onConfig ch now Config.CF_NAV_ICON a b s).lastActivity = s.lastActivity ∧
    (onConfig ch now Config.CF_OTHER a b s).lastActivity = s.lastActivity ∧
    (onNotification now n s).lastActivity = now ∧
    (onConnection now c s).lastActivity = now ∧
    (buttonISR now s).lastActivity = now ∧
    (s.buttonPressed = true → (handleButtonPress now s).lastActivity = now) := by
  refine ⟨rfl, ?_, ?_, rfl, rfl, rfl, rfl, rfl, rfl, ?_⟩
  · intro h; unfold onConfig; rw [h]; simp
  · intro h; unfold onConfig; rw [h]; simp
  · intro h; unfold handleButtonPress; rw [h]; simp

theorem event_handlers_lastActivity_witness :
    (onConfig linkActive 7 Config.CF_NAV_DATA 0 0 baseState).lastActivity = 7 ∧
    (handleButtonPress 7 { baseState with buttonPressed := true }).lastActivity = 7 := by
  have h := event_handlers_lastActivity linkActive 7 0 0 notifSample true baseState
  have h2 := event_handlers_lastActivity linkActive 7 0 0 notifSample true
    { baseState with buttonPressed := true }
  exact ⟨h.2.1 rfl, h2.2.2.2.2.2.2.2.2.2 rfl⟩

/-- C5 counterexample: a battery update with level value 150 stores 150 — the
stored value is not clamped to [0, 100]. -/
theorem onConfig_battery_unclamped_cex :
    (onConfig linkActive 0 Config.CF_PBAT 0 150 baseState).batteryLevel = 150 ∧
    ¬ (onConfig linkActive 0 Config.CF_PBAT 0 150 baseState).batteryLevel ≤ 100 :=
  ⟨rfl, by decide⟩

/-- C5 amended: every battery-update event stores the event's level value
unchanged (no clamping, so it lies in [0, 100] only when the input does), and
no other event mutates the battery level. -/
theorem batteryLevel_events (ch : ChronosLink) (now a b : Nat)
    (n : Notification) (c : Bool) (s : State) :
    (onConfig ch now Config.CF_PBAT a b s).batteryLevel = b ∧
    (onConfig ch now Config.CF_TIME a b s).batteryLevel = s.batteryLevel ∧
    (onConfig ch now Config.CF_NAV_DATA a b s).batteryLevel = s.batteryLevel ∧
    (onConfig ch now Config.CF_NAV_ICON a b s).batteryLevel = s.batteryLevel ∧
    (onConfig ch now Config.CF_OTHER a b s).batteryLevel = s.batteryLevel ∧
    (onNotification now n s).batteryLevel = s.batteryLevel ∧
    (onConnection now c s).batteryLevel = s.batteryLevel ∧
    (buttonISR now s).batteryLevel = s.batteryLevel ∧
    (handleButtonPress now s).batteryLevel = s.batteryLevel ∧
    (notifExpiryCheck now s).batteryLevel = s.batteryLevel ∧
    ((checkSleep now s).state).batteryLevel = s.batteryLevel := by
  refine ⟨rfl, rfl, ?_, rfl, rfl, rfl, rfl, rfl, ?_, ?_, ?_⟩
  · simp only [onConfig]; split <;> rfl
  · unfold handleButtonPress; split <;> rfl
  · unfold notifExpiryCheck; split <;> rfl
  · unfold checkSleep
    split
    · rfl
    · split <;> rfl

/-- C7: for every notification event, when the composed text
`title + ": " + message` has more than 20 characters the stored text is its
first 20 characters followed by the ellipsis marker; composed texts of at most
20 characters are stored unchanged. -/
theorem onNotification_truncates (now : Nat) (n : Notification) (s : State) :
    ((n.title ++ sepStr ++ n.message).data.length > 20 →
      (onNotification now n s).notifText =
        substringTo (n.title ++ sepStr ++ n.message) 20 ++ ellipsisStr) ∧
    ((n.title ++ sepStr ++ n.message).data.length ≤ 20 →
      (onNotification now n s).notifText = n.title ++ sepStr ++ n.message) := by
  constructor
  · intro h
    simp only [onNotification]
    rw [if_pos h]
  · intro h
    simp only [onNotification]
    have h2 : ¬ (n.title ++ sepStr ++ n.message).data.length > 20 := by omega
    rw [if_neg h2]

theorem onNotification_truncates_witness :
    (onNotification 0 notifSample baseState).notifText = truncSample := by
  have h := (onNotification_truncates 0 notifSample baseState).1 (by decide)
  rw [h]
  decide

theorem sub32_sleep_wrap_large (e : Nat) (h1 : SLEEP_TIME_MS < e) (h2 : e < U32) :
    ¬ sub32 SLEEP_TIME_MS e < 10000 := by
  have hU : U32 = 4294967296 := rfl
  have hT : SLEEP_TIME_MS = 30000 := rfl
  have hs : sub32 SLEEP_TIME_MS e = U32 + SLEEP_TIME_MS - e := by
    unfold sub32
    rw [Nat.mod_eq_of_lt (show SLEEP_TIME_MS < U32 by omega),
        Nat.mod_eq_of_lt h2,
        Nat.mod_eq_of_lt (by omega)]
    omega
  rw [hs]
  omega

/-- C3 counterexample: idle from 0 with no suppressors, at `now = 29999` the
remaining time is 1 ms whose ceiling in seconds is 1, yet the renderer draws
"Sleep in 0s" (floor); and at `now = 20000`, inside the claimed display
interval [20000, 30000), no countdown line is drawn at all. -/
theorem drawClock_countdown_cex :
    (DrawCall.drawStr 0 64 sleepMsg0) ∈ drawClock 29999 baseState ∧
    ¬ (DrawCall.drawStr 0 64 sleepMsg1) ∈ drawClock 29999 baseState ∧
    ¬ (DrawCall.drawStr 0 64 sleepMsg10) ∈ drawClock 20000 baseState := by
  decide

/-- C3 amended: in CLOCK mode with no suppressor active, the one-line countdown
"Sleep in n s" with `n = (SLEEP_TIME_MS - elapsed) / 1000` (floor division) is
drawn exactly when the elapsed idle time lies in (20000 ms, 30000 ms]; so from
idleness at t = 0 it shows "Sleep in 9s" down to "Sleep in 0s" over that
interval, and nothing outside it. -/
theorem drawClock_countdown (s : State) (now : Nat)
    (hC : s.isCharging = false) (hN : s.hasNotif = false)
    (hA : (s.hasNav && s.navData.active) = false)
    (h1 : s.lastActivity ≤ now) (h2 : now < U32) :
    (20000 < now - s.lastActivity ∧ now - s.lastActivity ≤ 30000 →
      drawClock now s =
        clockBase s ++
          [ DrawCall.setFont font6x10,
            DrawCall.drawStr 0 64
              (sleepInStr ++
               toString ((SLEEP_TIME_MS - (now - s.lastActivity)) / 1000) ++
               secondsStr) ]) ∧
    (now - s.lastActivity ≤ 20000 ∨ 30000 < now - s.lastActivity →
      drawClock now s = clockBase s) := by
  have he : sub32 now s.lastActivity = now - s.lastActivity := sub32_eq_sub _ _ h1 h2
  have hg : (!s.isCharging && !s.hasNotif && (!s.hasNav || !s.navData.active)) = true := by
    rw [hC, hN]
    cases hNav : s.hasNav
    · simp
    · rw [hNav] at hA
      simp at hA
      simp [hA]
  have hT : SLEEP_TIME_MS = 30000 := rfl
  constructor
  · intro ⟨ha, hb⟩
    have hrem : sub32 SLEEP_TIME_MS (sub32 now s.lastActivity) =
        SLEEP_TIME_MS - (now - s.lastActivity) := by
      rw [he]
      exact sub32_eq_sub _ _ (by omega) (by rw [hT]; decide)
    simp only [drawClock, hg, if_true]
    rw [hrem]
    rw [if_pos (by omega)]
  · intro hout
    simp only [drawClock, hg, if_true]
    rcases hout with hlo | hhi
    · have hrem : sub32 SLEEP_TIME_MS (sub32 now s.lastActivity) =
          SLEEP_TIME_MS - (now - s.lastActivity) := by
        rw [he]
        exact sub32_eq_sub _ _ (by omega) (by rw [hT]; decide)
      rw [hrem, if_neg (by omega)]
      simp
    · have hw : ¬ sub32 SLEEP_TIME_MS (sub32 now s.lastActivity) < 10000 := by
        rw [he]
        exact sub32_sleep_wrap_large _ (by omega) (by omega)
      rw [if_neg hw]
      simp

theorem drawClock_countdown_witness :
    drawClock 25000 baseState =
      clockBase baseState ++
        [DrawCall.setFont font6x10, DrawCall.drawStr 0 64 sleepMsg5] := by
  have h := (drawClock_countdown baseState 25000 rfl rfl rfl (by decide) (by decide)).1
    ⟨by decide, by decide⟩
  rw [h]
  decide

theorem lastIndexAux_le (c : Char) (l : List Char) (k i : Nat)
    (h : lastIndexAux c l k = some i) : i ≤ k := by
  induction k with
  | zero =>
    unfold lastIndexAux at h
    split at h
    · simp at h; omega
    · simp at h
  | succ k ih =>
    unfold lastIndexAux at h
    split at h
    · simp at h; omega
    · exact Nat.le_trans (ih h) (Nat.le_succ k)

theorem lastIndexAux_get (c : Char) (l : List Char) (k i : Nat)
    (h : lastIndexAux c l k = some i) : l.get? i = some c := by
  induction k with
  | zero =>
    unfold lastIndexAux at h
    split at h
    · simp at h; subst h; assumption
    · simp at h
  | succ k ih =>
    unfold lastIndexAux at h
    split at h
    · simp at h; subst h; assumption
    · exact ih h

theorem lastIndexAux_max (c : Char) (l : List Char) (k i : Nat)
    (h : lastIndexAux c l k = some i) :
    ∀ j, j ≤ k → l.get? j = some c → j ≤ i := by
  induction k with
  | zero =>
    intro j hj _
    unfold lastIndexAux at h
    split at h
    · simp at h; omega
    · simp at h
  | succ k ih =>
    intro j hj hg
    unfold lastIndexAux at h
    split at h
    · simp at h; omega
    · rcases Nat.lt_or_ge j (k + 1) with hlt | hge
      · exact ih h j (by omega) hg
      · exfalso
        have hj2 : j = k + 1 := by omega
        subst hj2
        simp_all

theorem lastIndexAux_none (c : Char) (l : List Char) (k : Nat)
    (h : lastIndexAux c l k = none) :
    ∀ j, j ≤ k → l.get? j ≠ some c := by
  induction k with
  | zero =>
    intro j hj
    unfold lastIndexAux at h
    split at h
    · simp at h
    · have hj0 : j = 0 := by omega
      subst hj0
      assumption
  | succ k ih =>
    intro j hj
    unfold lastIndexAux at h
    split at h
    · simp at h
    · rcases Nat.lt_or_ge j (k + 1) with hlt | hge
      · exact ih h j (by omega)
      · have hj2 : j = k + 1 := by omega
        subst hj2
        assumption

theorem take_cons_drop {α : Type} (c : α) :
    ∀ (l : List α) (i : Nat), l.get? i = some c →
      l.take i ++ c :: l.drop (i + 1) = l := by
  intro l
  induction l with
  | nil =>
    intro i h
    simp at h
  | cons x t ih =>
    intro i h
    cases i with
    | zero =>
      simp at h
      subst h
      simp
    | succ i =>
      simp [List.take, List.drop]
      exact ih i h

theorem string_mk_append (l1 l2 : List Char) :
    (⟨l1⟩ : String) ++ (⟨l2⟩ : String) = ⟨l1 ++ l2⟩ := rfl

theorem substring_recompose (d : String) (i : Nat)
    (h : d.data.get? i = some ' ') :
    substringTo d i ++ spaceStr ++ substringFrom d (i + 1) = d := by
  have hsp : spaceStr = (⟨[' ']⟩ : String) := rfl
  unfold substringTo substringFrom
  rw [hsp, string_mk_append, string_mk_append]
  have hl : (d.data.take i ++ [' ']) ++ d.data.drop (i + 1) = d.data := by
    rw [List.append_assoc]
    simpa using take_cons_drop ' ' d.data i h
  rw [hl]

/-- C6 counterexample: the direction text "abcdefgh ij" contains a space (at
index 8, which is the space nearest its midpoint 5), and under a
7-pixels-per-character width its single-line width 77 exceeds the 76 available
pixels, yet the renderer draws it as a single clipped line — it does not wrap
at the space nearest the midpoint. -/
theorem drawNavigation_wrap_cex :
    width7 sampleNoMidSpace > 128 - 52 ∧
    (' ' ∈ sampleNoMidSpace.data) ∧
    drawNavigation width7 wideNavState =
      [ DrawCall.setFont font7x14B,
        DrawCall.drawStr 52 22 sampleNoMidSpace,
        DrawCall.setFont fontFub14,
        DrawCall.drawStr 52 50 sampleDistance ] := by
  refine ⟨by decide, by decide, ?_⟩
  decide

/-- C6 amended: when the single-line width exceeds the available horizontal
space, the direction text is wrapped into exactly two lines split at the LAST
space at or before the character midpoint — the two lines recompose, with that
space, to the original text, and no space at or before the midpoint lies
further right; when the width exceeds the space but no space occurs at or
before the midpoint (even if the text contains spaces beyond it), it is drawn
as a single, possibly clipped, line; when it fits, it is drawn on one line
unchanged. -/
theorem drawDirection_wrap (strWidth : String → Nat) (d : String) :
    (strWidth d ≤ 76 → drawDirection strWidth 10 d = [DrawCall.drawStr 52 22 d]) ∧
    (strWidth d > 76 →
      (∀ i, lastIndexOfFrom ' ' d.data (d.data.length / 2) = some i →
        drawDirection strWidth 10 d =
          [ DrawCall.drawStr 52 18 (substringTo d i),
            DrawCall.drawStr 52 30 (substringFrom d (i + 1)) ] ∧
        substringTo d i ++ spaceStr ++ substringFrom d (i + 1) = d ∧
        i ≤ d.data.length / 2 ∧
        (∀ j, j ≤ d.data.length / 2 → d.data.get? j = some ' ' → j ≤ i)) ∧
      (lastIndexOfFrom ' ' d.data (d.data.length / 2) = none →
        (∀ j, j ≤ d.data.length / 2 → d.data.get? j ≠ some ' ') ∧
        drawDirection strWidth 10 d = [DrawCall.drawStr 52 22 d])) := by
  refine ⟨?_, ?_⟩
  · intro hfit
    unfold drawDirection
    rw [if_neg (by omega)]
  · intro hw
    refine ⟨?_, ?_⟩
    · intro i hi
      have haux : lastIndexAux ' ' d.data (d.data.length / 2) = some i := by
        unfold lastIndexOfFrom at hi
        split at hi
        · simp at hi
        · exact hi
      have hget : d.data.get? i = some ' ' := lastIndexAux_get _ _ _ _ haux
      refine ⟨?_, substring_recompose d i hget, lastIndexAux_le _ _ _ _ haux,
        lastIndexAux_max _ _ _ _ haux⟩
      unfold drawDirection
      rw [if_pos (by omega), hi]
    · intro hn
      unfold lastIndexOfFrom at hn
      constructor
      · split at hn
        · intro j hj
          have hlen : d.data.length = 0 := by omega
          have hnil : d.data = [] := List.length_eq_zero.mp hlen
          rw [hnil]
          simp
        · exact lastIndexAux_none _ _ _ hn
      · unfold drawDirection
        rw [if_pos (by omega)]
        split at hn
        · -- length ≤ length / 2 forces the empty string, whose width cannot
          -- exceed 76 only vacuously; still, lastIndexOfFrom is none and the
          -- match takes the single-line branch
          rw [show lastIndexOfFrom ' ' d.data (d.data.length / 2) = none from by
            unfold lastIndexOfFrom
            rw [if_pos (by omega)]]
        · rw [show lastIndexOfFrom ' ' d.data (d.data.length / 2) = none from by
            unfold lastIndexOfFrom
            rw [if_neg (by omega)]
            exact hn]

theorem drawDirection_wrap_witness :
    drawDirection width7 10 sampleTwoWords =
      [DrawCall.drawStr 52 18 helloStr, DrawCall.drawStr 52 30 worldStr] := by
  have h := ((drawDirection_wrap width7 sampleTwoWords).2 (by decide)).1 5 (by decide)
  rw [h.1]
  decide
